import Mathlib

/-!
Shallow embedding of the classification and access-control core of
`src/myapp/src/App.tsx` (a child-abuse case intake tool), together with
theorems settling the specification claims about it.

Conventions of the embedding:
* JS strings are Lean `String`s; character-level scanning works on `String.data`
  (`List Char`) so that every definition reduces in the kernel.
* `String.prototype.trim`/`toLowerCase` are modelled by `jsTrim`/`jsToLower`.
  The case mapping is the simple ASCII mapping (the spec itself stipulates
  "no locale-specific folding beyond simple case mapping"); the whitespace set
  is the common JS whitespace subset actually exercised by the data.
* The regex `/(\d+)\s*%/` of `extractPercentage` is modelled by an equivalent
  left-to-right scan (`extractLoop`): the first maximal digit run followed by
  optional whitespace and `%` wins, exactly as the backtracking regex behaves.
* React state updates (`setCases`) become explicit result values: each handler
  returns an outcome constructor; error outcomes carry no new case list, which
  is the handler's early `return` before any `setCases` call.
* JS truthiness of `editingCaseId : number | null` is `jsTruthy` on
  `Option Nat`; the non-null assertion `cases.find(...)!` on a missing id is
  the `crashed` outcome.
* `Date.now()` and the current date string are passed as the explicit
  parameters `now` and `today`.
-/

-- ==== Types (App.tsx lines 3-40) ====

inductive UserRole where
  | user
  | admin
  | organization
deriving DecidableEq

inductive CaseType where
  | case_note
  | school_report
  | medical_document
deriving DecidableEq

inductive AbuseLevel where
  | low
  | medium
  | serious
deriving DecidableEq

inductive Gender where
  | male
  | female
  | other
deriving DecidableEq

structure CaseData where
  id : Nat
  type : CaseType
  childName : String
  childAge : Int
  childGender : Gender
  content : String
  extracted : String
  date : String
  prediction : AbuseLevel
  notified : Bool
  matchedKeywords : List String
  createdBy : UserRole
  lastEditedBy : Option UserRole
deriving DecidableEq

structure DetectionResult where
  level : AbuseLevel
  matchedKeywords : List String
  reasoning : String
deriving DecidableEq

structure LevelIndicators where
  keywords : List String
  bruisePercentage : Option (Nat × Nat)
deriving DecidableEq

-- ==== Configuration (App.tsx lines 42-63) ====

/-- `ABUSE_INDICATORS` table: keywords and bruise-percentage range per level. -/
def ABUSE_INDICATORS : AbuseLevel → LevelIndicators
  | AbuseLevel.low =>
      ⟨["trầy xước", "trầy da", "xước nhẹ", "xước"], some (0, 20)⟩
  | AbuseLevel.medium =>
      ⟨["bầm tím", "sưng tấy", "bầm", "sưng"], some (20, 50)⟩
  | AbuseLevel.serious =>
      ⟨["chảy máu", "xuất huyết", "gãy xương", "vết bầm lớn", "bạo hành", "đánh đập"],
       some (50, 100)⟩

-- ==== String primitives ====

/-- JS whitespace (the subset relevant to this program). -/
def isWsJs (c : Char) : Bool :=
  c == ' ' || c == '\t' || c == '\n' || c == '\r' || c == '\x0b' || c == '\x0c' || c == '\u00A0'

/-- Simple case mapping of `String.prototype.toLowerCase` on one character. -/
def lowerChar (c : Char) : Char :=
  if 65 ≤ c.toNat ∧ c.toNat ≤ 90 then Char.ofNat (c.toNat + 32) else c

/-- `String.prototype.toLowerCase`. -/
def jsToLower (l : List Char) : List Char := l.map lowerChar

/-- `String.prototype.trim`. -/
def jsTrim (l : List Char) : List Char :=
  ((l.dropWhile isWsJs).reverse.dropWhile isWsJs).reverse

/-- `content.trim().toLowerCase()` , the normalization in `detectAbuseLevel`. -/
def normalizeText (s : String) : List Char := jsToLower (jsTrim s.data)

/-- Does `hay` start with `sub`? -/
def leadsWith : List Char → List Char → Bool
  | [], _ => true
  | _ :: _, [] => false
  | a :: as, b :: bs => a == b && leadsWith as bs

/-- Substring containment on character lists. -/
def containsSub : List Char → List Char → Bool
  | [], sub => sub.isEmpty
  | h :: t, sub => leadsWith sub (h :: t) || containsSub t sub

/-- `normalized.includes(keyword)` of JS. -/
def strIncludes (hay : List Char) (needle : String) : Bool :=
  containsSub hay needle.data

-- ==== Percentage extraction (App.tsx lines 75-78) ====

/-- State of the scan for the regex `(\d+)\s*%`. -/
inductive PState where
  | start
  | inDigits (n : Nat)
  | inWs (n : Nat)

def digitVal (c : Char) : Nat := c.toNat - 48

/-- Left-to-right scan equivalent to matching `/(\d+)\s*%/` and taking the
first match: a maximal digit run, optional whitespace, then `%`. -/
def extractLoop : PState → List Char → Option Nat
  | _, [] => none
  | PState.start, c :: rest =>
      if c.isDigit then extractLoop (PState.inDigits (digitVal c)) rest
      else extractLoop PState.start rest
  | PState.inDigits n, c :: rest =>
      if c.isDigit then extractLoop (PState.inDigits (10 * n + digitVal c)) rest
      else if c == '%' then some n
      else if isWsJs c then extractLoop (PState.inWs n) rest
      else extractLoop PState.start rest
  | PState.inWs n, c :: rest =>
      if c == '%' then some n
      else if isWsJs c then extractLoop (PState.inWs n) rest
      else if c.isDigit then extractLoop (PState.inDigits (digitVal c)) rest
      else extractLoop PState.start rest

/-- `extractPercentage`: first integer followed by optional whitespace and `%`. -/
def extractPercentage (l : List Char) : Option Nat :=
  extractLoop PState.start l

-- ==== Level matching (App.tsx lines 80-117) ====

structure LevelCheck where
  found : Bool
  keywords : List String
  reasoning : String
deriving DecidableEq

/-- The keyword loop of `checkLevel`: every configured keyword contained in the
normalized text, in declaration order. -/
def literalMatches (normalized : List Char) (ind : LevelIndicators) : List String :=
  ind.keywords.filter fun k => strIncludes normalized k

/-- Synthesized range-rule keyword, e.g. `bầm tím 60%`. -/
def synthKeyword (p : Nat) : String := "bầm tím " ++ Nat.repr p ++ "%"

/-- The range-rule portion of `checkLevel`: a synthesized keyword when a
percentage is present, the rule has a range, the text mentions the bruising
term, and `min < p ≤ max`. -/
def rangeMatch (normalized : List Char) (ind : LevelIndicators) : List String :=
  match extractPercentage normalized, ind.bruisePercentage with
  | some p, some r =>
      if strIncludes normalized "bầm" && decide (r.1 < p) && decide (p ≤ r.2)
      then [synthKeyword p] else []
  | _, _ => []

/-- All matched keywords of `checkLevel`: literal matches, then the
range-rule keyword if any. -/
def matchedList (normalized : List Char) (ind : LevelIndicators) : List String :=
  literalMatches normalized ind ++ rangeMatch normalized ind

/-- `checkLevel` (App.tsx lines 80-117). -/
def checkLevel (normalized : List Char) (ind : LevelIndicators) : LevelCheck :=
  if matchedList normalized ind = [] then ⟨false, [], ""⟩
  else
    ⟨true, matchedList normalized ind,
     "Phát hiện: " ++ String.intercalate ", " (matchedList normalized ind)⟩

-- ==== Classification (App.tsx lines 119-154) ====

/-- `detectAbuseLevel`: serious, then medium, then low, defaulting to the
canonical no-signal result. This is the spec's `classify`. -/
def detectAbuseLevel (content : String) : DetectionResult :=
  let normalized := normalizeText content
  if (checkLevel normalized (ABUSE_INDICATORS AbuseLevel.serious)).found then
    ⟨AbuseLevel.serious,
     (checkLevel normalized (ABUSE_INDICATORS AbuseLevel.serious)).keywords,
     (checkLevel normalized (ABUSE_INDICATORS AbuseLevel.serious)).reasoning⟩
  else if (checkLevel normalized (ABUSE_INDICATORS AbuseLevel.medium)).found then
    ⟨AbuseLevel.medium,
     (checkLevel normalized (ABUSE_INDICATORS AbuseLevel.medium)).keywords,
     (checkLevel normalized (ABUSE_INDICATORS AbuseLevel.medium)).reasoning⟩
  else if (checkLevel normalized (ABUSE_INDICATORS AbuseLevel.low)).found then
    ⟨AbuseLevel.low,
     (checkLevel normalized (ABUSE_INDICATORS AbuseLevel.low)).keywords,
     (checkLevel normalized (ABUSE_INDICATORS AbuseLevel.low)).reasoning⟩
  else ⟨AbuseLevel.low, [], "Không phát hiện dấu hiệu bất thường"⟩

-- ==== Case creation, editing, deletion (App.tsx lines 184-303) ====

/-- The form fields consumed by `handleAddCase`. The age arrives as the raw
text of the age input. -/
structure CaseInput where
  caseType : CaseType
  childName : String
  childAge : String
  childGender : Gender
  content : String
deriving DecidableEq

/-- Leading digit run accumulated into a number; `none` when no digit seen. -/
def parseDigits : List Char → Option Nat → Option Nat
  | [], acc => acc
  | c :: rest, acc =>
      if c.isDigit then parseDigits rest (some (10 * acc.getD 0 + digitVal c))
      else acc

/-- JS `parseInt(s, 10)`: skip leading whitespace, optional sign, then the
longest digit run; `none` models `NaN`. -/
def parseIntJS (s : String) : Option Int :=
  match s.data.dropWhile isWsJs with
  | '-' :: rest => (parseDigits rest none).map fun n => -(n : Int)
  | '+' :: rest => (parseDigits rest none).map fun n => (n : Int)
  | l => (parseDigits l none).map fun n => (n : Int)

/-- JS truthiness of `editingCaseId : number | null`: `null` and `0` are falsy. -/
def jsTruthy : Option Nat → Bool
  | some n => decide (n ≠ 0)
  | none => false

/-- The two validation gates at the top of `handleAddCase` (lines 187-196):
empty name/age/content after trimming, then `isNaN(ageNum) || ageNum <= 0`. -/
def validateInput (input : CaseInput) : Except String Int :=
  if jsTrim input.childName.data = [] ∨ jsTrim input.childAge.data = []
      ∨ jsTrim input.content.data = [] then
    Except.error "Tên trẻ, tuổi và nội dung không được để trống"
  else
    match parseIntJS input.childAge with
    | none => Except.error "Tuổi phải là số dương hợp lệ"
    | some ageNum =>
        if ageNum ≤ 0 then Except.error "Tuổi phải là số dương hợp lệ"
        else Except.ok ageNum

/-- The `newCase` record literal of `handleAddCase` (lines 205-221), with
`createdBy` already resolved to the original creator when editing. -/
def mkCase (editingCaseId : Option Nat) (now : Nat) (today : String)
    (input : CaseInput) (ageNum : Int) (role : UserRole)
    (origCreatedBy : UserRole) : CaseData :=
  let detection := detectAbuseLevel input.content
  ⟨(if jsTruthy editingCaseId then editingCaseId.getD 0 else now),
   input.caseType,
   String.mk (jsTrim input.childName.data),
   ageNum,
   input.childGender,
   input.content,
   detection.reasoning,
   today,
   detection.level,
   decide (detection.level = AbuseLevel.serious),
   detection.matchedKeywords,
   origCreatedBy,
   (if jsTruthy editingCaseId then some role else none)⟩

/-- The duplicate filter of `handleAddCase` (lines 224-230): same trimmed
lowercased name, same age, same gender, not the case being edited. This is the
spec's `find_duplicates`. -/
def findDuplicates (cases : List CaseData) (rawName : String) (ageNum : Int)
    (gender : Gender) (editingCaseId : Option Nat) : List CaseData :=
  cases.filter fun c =>
    decide (jsToLower c.childName.data = jsToLower (jsTrim rawName.data)
      ∧ c.childAge = ageNum ∧ c.childGender = gender ∧ some c.id ≠ editingCaseId)

/-- Outcome of `handleAddCase`. `validationError` and `permissionDenied` are
the early returns before any `setCases` call; `crashed` is the non-null
assertion `cases.find(...)!` failing on a missing edited id; `saved` carries
the list passed to `setCases` and the advisory duplicate list shown in the
alert. -/
inductive AddResult where
  | validationError (msg : String)
  | permissionDenied
  | crashed
  | saved (newCases : List CaseData) (duplicates : List CaseData)
deriving DecidableEq

/-- `handleAddCase` (lines 184-279): the spec's `createCase` when
`editingCaseId` is null and `updateCase` when it holds the edited case's id. -/
def handleAddCase (role : UserRole) (editingCaseId : Option Nat) (now : Nat)
    (today : String) (input : CaseInput) (cases : List CaseData) : AddResult :=
  match validateInput input with
  | Except.error msg => AddResult.validationError msg
  | Except.ok ageNum =>
    if jsTruthy editingCaseId ∧ role = UserRole.user then
      AddResult.permissionDenied
    else
      match (if jsTruthy editingCaseId then
               (cases.find? fun c => decide (some c.id = editingCaseId)).map
                 fun c => c.createdBy
             else some role) with
      | none => AddResult.crashed
      | some origCreatedBy =>
          let newCase := mkCase editingCaseId now today input ageNum role origCreatedBy
          let dups := findDuplicates cases input.childName ageNum input.childGender editingCaseId
          if jsTruthy editingCaseId then
            AddResult.saved
              (cases.map fun c => if some c.id = editingCaseId then newCase else c)
              dups
          else
            AddResult.saved (newCase :: cases) dups

/-- The case list held by the component after `handleAddCase` ran: `setCases`
is only reached on the `saved` outcome. -/
def casesAfterAdd (r : AddResult) (old : List CaseData) : List CaseData :=
  match r with
  | AddResult.saved cs _ => cs
  | _ => old

/-- Outcome of `handleDeleteCase`; `deleted` is the path that calls `setCases`
and shows the success alert. -/
inductive DeleteResult where
  | permissionDenied
  | cancelled
  | deleted (newCases : List CaseData)
deriving DecidableEq

/-- `handleDeleteCase` (lines 294-303): the spec's `deleteCase`. `confirmed`
is the user's answer to `window.confirm`. -/
def handleDeleteCase (role : UserRole) (confirmed : Bool) (id : Nat)
    (cases : List CaseData) : DeleteResult :=
  if role = UserRole.user then DeleteResult.permissionDenied
  else if confirmed then
    DeleteResult.deleted (cases.filter fun c => decide (c.id ≠ id))
  else DeleteResult.cancelled

/-- The case list after `handleDeleteCase` ran. -/
def casesAfterDelete (r : DeleteResult) (old : List CaseData) : List CaseData :=
  match r with
  | DeleteResult.deleted cs => cs
  | _ => old

/-- Does the input pass both validation gates of `handleAddCase`? -/
def validationPasses (input : CaseInput) : Bool :=
  match validateInput input with
  | Except.ok _ => true
  | Except.error _ => false

-- ==== Role-based projection and statistics (App.tsx lines 305-341) ====

/-- The role-based visibility filter as duplicated inside the `stats` memo
(lines 306-315). -/
def statsFiltered (role : UserRole) (cases : List CaseData) : List CaseData :=
  match role with
  | UserRole.organization =>
      cases.filter fun c => decide (c.prediction = AbuseLevel.serious)
  | UserRole.user =>
      cases.filter fun c =>
        decide (c.createdBy = UserRole.user ∧ c.lastEditedBy = none)
  | UserRole.admin =>
      cases.filter fun c =>
        decide (c.createdBy ≠ UserRole.organization
          ∧ c.lastEditedBy ≠ some UserRole.organization)

/-- The role-based visibility filter as duplicated for the table rows
(lines 333-341). -/
def displayedCases (role : UserRole) (cases : List CaseData) : List CaseData :=
  match role with
  | UserRole.organization =>
      cases.filter fun c => decide (c.prediction = AbuseLevel.serious)
  | UserRole.user =>
      cases.filter fun c =>
        decide (c.createdBy = UserRole.user ∧ c.lastEditedBy = none)
  | UserRole.admin =>
      cases.filter fun c =>
        decide (c.createdBy ≠ UserRole.organization
          ∧ c.lastEditedBy ≠ some UserRole.organization)

structure StatsResult where
  total : Nat
  serious : Nat
  medium : Nat
  low : Nat
  hasSerious : Bool
deriving DecidableEq

/-- The `stats` memo (lines 305-330). -/
def stats (role : UserRole) (cases : List CaseData) : StatsResult :=
  let f := statsFiltered role cases
  ⟨f.length,
   (f.filter fun c => decide (c.prediction = AbuseLevel.serious)).length,
   (f.filter fun c => decide (c.prediction = AbuseLevel.medium)).length,
   (f.filter fun c => decide (c.prediction = AbuseLevel.low)).length,
   f.any fun c => decide (c.prediction = AbuseLevel.serious) && c.notified⟩

-- ==== Concrete fixtures used by witnesses and counterexamples ====

/-- A stored case named `An`, age 7, male; fixture for duplicate detection. -/
def dupProbe : CaseData :=
  ⟨1, CaseType.case_note, "An", 7, Gender.male, "nd", "", "2024-01-01",
   AbuseLevel.low, false, [], UserRole.admin, none⟩

/-- A serious, notified case; fixture for the statistics invariant. -/
def seriousProbe : CaseData :=
  ⟨2, CaseType.case_note, "B", 5, Gender.female, "nd", "", "2024-01-01",
   AbuseLevel.serious, true, [], UserRole.admin, none⟩

-- ==== Helper lemmas about the level matcher ====

theorem checkLevel_keywords (n : List Char) (ind : LevelIndicators) :
    (checkLevel n ind).keywords = matchedList n ind := by
  unfold checkLevel
  split
  · rename_i h
    exact h.symm
  · rfl

theorem checkLevel_found_iff (n : List Char) (ind : LevelIndicators) :
    (checkLevel n ind).found = true ↔ matchedList n ind ≠ [] := by
  unfold checkLevel
  split
  · rename_i h
    simp [h]
  · rename_i h
    simp [h]

theorem checkLevel_keywords_ne_nil (n : List Char) (ind : LevelIndicators)
    (h : (checkLevel n ind).found = true) : (checkLevel n ind).keywords ≠ [] := by
  rw [checkLevel_keywords]
  exact (checkLevel_found_iff n ind).mp h

theorem checkLevel_found_of_kw (n : List Char) (ind : LevelIndicators) (k : String)
    (hk : k ∈ ind.keywords) (hs : strIncludes n k = true) :
    (checkLevel n ind).found = true := by
  have hmem : k ∈ matchedList n ind := by
    unfold matchedList literalMatches
    exact List.mem_append_left _ (List.mem_filter.mpr ⟨hk, hs⟩)
  exact (checkLevel_found_iff n ind).mpr (List.ne_nil_of_mem hmem)

theorem rangeMatch_eq_nil (n : List Char) (ind : LevelIndicators) (mn mx p : Nat)
    (h1 : ind.bruisePercentage = some (mn, mx)) (h2 : extractPercentage n = some p)
    (h3 : ¬(mn < p ∧ p ≤ mx)) : rangeMatch n ind = [] := by
  unfold rangeMatch
  rw [h2, h1]
  have hcond : (strIncludes n "bầm" && decide (mn < p) && decide (p ≤ mx)) = false := by
    rcases Nat.lt_or_ge mn p with hlt | hge
    · have hnle : ¬ p ≤ mx := fun hle => h3 ⟨hlt, hle⟩
      simp [hnle]
    · have hnlt : ¬ mn < p := Nat.not_lt.mpr hge
      simp [hnlt]
  simp [hcond]

theorem statsFiltered_subset (role : UserRole) (cases : List CaseData) (c : CaseData)
    (h : c ∈ statsFiltered role cases) : c ∈ cases := by
  cases role <;> exact (List.mem_filter.mp h).1

-- ==== Claim theorems ====

/-- C1: for any text, `detectAbuseLevel` evaluates serious, then medium, then
low, returning the first level whose matcher reports `found`; in particular a
text containing any serious-level keyword is classified serious, whatever
lower-level keywords it also contains. -/
theorem C1_precedence (content : String) :
    ((checkLevel (normalizeText content) (ABUSE_INDICATORS AbuseLevel.serious)).found = true →
      detectAbuseLevel content =
        ⟨AbuseLevel.serious,
         (checkLevel (normalizeText content) (ABUSE_INDICATORS AbuseLevel.serious)).keywords,
         (checkLevel (normalizeText content) (ABUSE_INDICATORS AbuseLevel.serious)).reasoning⟩)
    ∧ ((checkLevel (normalizeText content) (ABUSE_INDICATORS AbuseLevel.serious)).found = false →
        (checkLevel (normalizeText content) (ABUSE_INDICATORS AbuseLevel.medium)).found = true →
        detectAbuseLevel content =
          ⟨AbuseLevel.medium,
           (checkLevel (normalizeText content) (ABUSE_INDICATORS AbuseLevel.medium)).keywords,
           (checkLevel (normalizeText content) (ABUSE_INDICATORS AbuseLevel.medium)).reasoning⟩)
    ∧ ((checkLevel (normalizeText content) (ABUSE_INDICATORS AbuseLevel.serious)).found = false →
        (checkLevel (normalizeText content) (ABUSE_INDICATORS AbuseLevel.medium)).found = false →
        (checkLevel (normalizeText content) (ABUSE_INDICATORS AbuseLevel.low)).found = true →
        detectAbuseLevel content =
          ⟨AbuseLevel.low,
           (checkLevel (normalizeText content) (ABUSE_INDICATORS AbuseLevel.low)).keywords,
           (checkLevel (normalizeText content) (ABUSE_INDICATORS AbuseLevel.low)).reasoning⟩)
    ∧ (∀ k ∈ (ABUSE_INDICATORS AbuseLevel.serious).keywords,
        strIncludes (normalizeText content) k = true →
        (detectAbuseLevel content).level = AbuseLevel.serious) := by
  refine ⟨?_, ?_, ?_, ?_⟩
  · intro h
    simp [detectAbuseLevel, h]
  · intro h1 h2
    simp [detectAbuseLevel, h1, h2]
  · intro h1 h2 h3
    simp [detectAbuseLevel, h1, h2, h3]
  · intro k hk hks
    have h := checkLevel_found_of_kw (normalizeText content)
      (ABUSE_INDICATORS AbuseLevel.serious) k hk hks
    simp [detectAbuseLevel, h]

/-- C1 witness: `bạo hành xước` contains the serious keyword `bạo hành` and
the low keyword `xước`, and is classified serious. -/
theorem C1_precedence_witness :
    ("bạo hành" ∈ (ABUSE_INDICATORS AbuseLevel.serious).keywords
      ∧ "xước" ∈ (ABUSE_INDICATORS AbuseLevel.low).keywords
      ∧ strIncludes (normalizeText "bạo hành xước") "bạo hành" = true
      ∧ strIncludes (normalizeText "bạo hành xước") "xước" = true)
    ∧ (detectAbuseLevel "bạo hành xước").level = AbuseLevel.serious :=
  ⟨⟨by decide, by decide, by decide, by decide⟩,
   (C1_precedence "bạo hành xước").2.2.2 "bạo hành" (by decide) (by decide)⟩

/-- C5: when a rule's range `(min, max]` is not satisfied — in particular when
the extracted percentage equals `min` exactly — no synthesized keyword is
added, so the matched keywords are just the literal keyword matches; the text
`bầm tím 20%` therefore does not satisfy the medium range-rule `(20, 50]`. -/
theorem C5_boundary :
    (∀ (n : List Char) (ind : LevelIndicators) (mn mx p : Nat),
        ind.bruisePercentage = some (mn, mx) → extractPercentage n = some p →
        ¬(mn < p ∧ p ≤ mx) →
        (checkLevel n ind).keywords = ind.keywords.filter fun k => strIncludes n k)
    ∧ (checkLevel (normalizeText "bầm tím 20%") (ABUSE_INDICATORS AbuseLevel.medium)).keywords
        = ["bầm tím", "bầm"] := by
  constructor
  · intro n ind mn mx p h1 h2 h3
    rw [checkLevel_keywords]
    unfold matchedList
    rw [rangeMatch_eq_nil n ind mn mx p h1 h2 h3, List.append_nil]
    rfl
  · decide

/-- C5 witness: the medium rule has range `(20, 50]`, the text `bầm tím 20%`
extracts percentage 20, the range condition fails at exactly `min`, and the
matched keywords degenerate to the literal matches. -/
theorem C5_boundary_witness :
    ((ABUSE_INDICATORS AbuseLevel.medium).bruisePercentage = some (20, 50)
      ∧ extractPercentage (normalizeText "bầm tím 20%") = some 20
      ∧ ¬(20 < 20 ∧ 20 ≤ 50))
    ∧ (checkLevel (normalizeText "bầm tím 20%") (ABUSE_INDICATORS AbuseLevel.medium)).keywords
        = (ABUSE_INDICATORS AbuseLevel.medium).keywords.filter
            fun k => strIncludes (normalizeText "bầm tím 20%") k :=
  ⟨⟨by decide, by decide, by decide⟩,
   C5_boundary.1 (normalizeText "bầm tím 20%") (ABUSE_INDICATORS AbuseLevel.medium)
     20 50 20 (by decide) (by decide) (by decide)⟩

/-- C6: for role organization, both the displayed rows and the statistics
input are exactly the cases with prediction serious. -/
theorem C6_org_visibility (c : CaseData) (cases : List CaseData) :
    (c ∈ displayedCases UserRole.organization cases ↔
      c ∈ cases ∧ c.prediction = AbuseLevel.serious)
    ∧ (c ∈ statsFiltered UserRole.organization cases ↔
      c ∈ cases ∧ c.prediction = AbuseLevel.serious) := by
  constructor
  · simp [displayedCases, List.mem_filter]
  · simp [statsFiltered, List.mem_filter]

/-- C7: the text `Trẻ bị bầm tím 60%` is classified serious with the
synthesized keyword `bầm tím 60%`, via the serious range rule `(50, 100]`
satisfied by the extracted percentage 60. -/
theorem C7_scenario :
    detectAbuseLevel "Trẻ bị bầm tím 60%" =
      ⟨AbuseLevel.serious, ["bầm tím 60%"], "Phát hiện: bầm tím 60%"⟩
    ∧ "bầm tím 60%" ∈ (detectAbuseLevel "Trẻ bị bầm tím 60%").matchedKeywords
    ∧ extractPercentage (normalizeText "Trẻ bị bầm tím 60%") = some 60
    ∧ (ABUSE_INDICATORS AbuseLevel.serious).bruisePercentage = some (50, 100)
    ∧ (50 < 60 ∧ 60 ≤ 100) :=
  ⟨by decide, by decide, by decide, by decide, by decide⟩

/-- C9: `findDuplicates` returns exactly the stored cases whose lowercased
name equals the candidate's trimmed lowercased name with identical age and
gender, excluding the case being edited; in particular stored `An` and
candidate `an` (same age, same gender) are correlated. -/
theorem C9_duplicates :
    (∀ (c : CaseData) (cases : List CaseData) (name : String) (age : Int)
        (g : Gender) (eid : Option Nat),
        c ∈ findDuplicates cases name age g eid ↔
          c ∈ cases ∧ jsToLower c.childName.data = jsToLower (jsTrim name.data)
            ∧ c.childAge = age ∧ c.childGender = g ∧ some c.id ≠ eid)
    ∧ dupProbe ∈ findDuplicates [dupProbe] "an" 7 Gender.male none := by
  constructor
  · intro c cases name age g eid
    simp [findDuplicates, List.mem_filter]
  · decide

/-- C10: whenever classification matched nothing, the result is exactly the
canonical low/no-signal result; in particular `detectAbuseLevel ""` is that
default. -/
theorem C10_default :
    (∀ s : String, (detectAbuseLevel s).matchedKeywords = [] →
        detectAbuseLevel s =
          ⟨AbuseLevel.low, [], "Không phát hiện dấu hiệu bất thường"⟩)
    ∧ detectAbuseLevel "" = ⟨AbuseLevel.low, [], "Không phát hiện dấu hiệu bất thường"⟩ := by
  constructor
  · intro s h
    cases h1 : (checkLevel (normalizeText s) (ABUSE_INDICATORS AbuseLevel.serious)).found with
    | true =>
        exfalso
        apply checkLevel_keywords_ne_nil _ _ h1
        have hkw : (detectAbuseLevel s).matchedKeywords
            = (checkLevel (normalizeText s) (ABUSE_INDICATORS AbuseLevel.serious)).keywords := by
          simp [detectAbuseLevel, h1]
        rw [← hkw]
        exact h
    | false =>
      cases h2 : (checkLevel (normalizeText s) (ABUSE_INDICATORS AbuseLevel.medium)).found with
      | true =>
          exfalso
          apply checkLevel_keywords_ne_nil _ _ h2
          have hkw : (detectAbuseLevel s).matchedKeywords
              = (checkLevel (normalizeText s) (ABUSE_INDICATORS AbuseLevel.medium)).keywords := by
            simp [detectAbuseLevel, h1, h2]
          rw [← hkw]
          exact h
      | false =>
        cases h3 : (checkLevel (normalizeText s) (ABUSE_INDICATORS AbuseLevel.low)).found with
        | true =>
            exfalso
            apply checkLevel_keywords_ne_nil _ _ h3
            have hkw : (detectAbuseLevel s).matchedKeywords
                = (checkLevel (normalizeText s) (ABUSE_INDICATORS AbuseLevel.low)).keywords := by
              simp [detectAbuseLevel, h1, h2, h3]
            rw [← hkw]
            exact h
        | false =>
            simp [detectAbuseLevel, h1, h2, h3]
  · decide

/-- C10 witness: the empty string matches nothing and yields the default. -/
theorem C10_default_witness :
    (detectAbuseLevel "").matchedKeywords = []
    ∧ detectAbuseLevel "" = ⟨AbuseLevel.low, [], "Không phát hiện dấu hiệu bất thường"⟩ :=
  ⟨by decide, C10_default.1 "" (by decide)⟩

-- ==== Helper lemmas about validation and the handlers ====

theorem validateInput_ok_iff (input : CaseInput) (n : Int) :
    validateInput input = Except.ok n ↔
      ¬(jsTrim input.childName.data = [] ∨ jsTrim input.childAge.data = []
        ∨ jsTrim input.content.data = [])
      ∧ parseIntJS input.childAge = some n ∧ 0 < n := by
  unfold validateInput
  by_cases he : jsTrim input.childName.data = [] ∨ jsTrim input.childAge.data = []
      ∨ jsTrim input.content.data = []
  · rw [if_pos he]
    simp [he]
  · rw [if_neg he]
    cases hp : parseIntJS input.childAge with
    | none => simp [he]
    | some m =>
      by_cases hm : m ≤ 0
      · simp only [if_pos hm]
        simp [he]
        intro hmn
        omega
      · simp only [if_neg hm]
        simp [he]
        intro hmn
        omega

theorem validateInput_error_of_bad (input : CaseInput)
    (h : jsTrim input.childName.data = [] ∨ jsTrim input.childAge.data = []
      ∨ jsTrim input.content.data = [] ∨ parseIntJS input.childAge = none
      ∨ ∃ n, parseIntJS input.childAge = some n ∧ n ≤ 0) :
    ∃ msg, validateInput input = Except.error msg := by
  cases hv : validateInput input with
  | error m => exact ⟨m, rfl⟩
  | ok n =>
    exfalso
    obtain ⟨hne, hp, hpos⟩ := (validateInput_ok_iff input n).mp hv
    rcases h with h1 | h2 | h3 | h4 | ⟨k, hk, hkle⟩
    · exact hne (Or.inl h1)
    · exact hne (Or.inr (Or.inl h2))
    · exact hne (Or.inr (Or.inr h3))
    · rw [hp] at h4
      cases h4
    · rw [hp] at hk
      have hnk : n = k := by
        injection hk
      omega

theorem handleAddCase_of_error (role : UserRole) (eid : Option Nat) (now : Nat)
    (today : String) (input : CaseInput) (cases : List CaseData) (msg : String)
    (h : validateInput input = Except.error msg) :
    handleAddCase role eid now today input cases = AddResult.validationError msg := by
  unfold handleAddCase
  rw [h]

theorem handleAddCase_user_edit_denied (eid : Option Nat) (now : Nat)
    (today : String) (input : CaseInput) (cases : List CaseData) (n : Int)
    (ht : jsTruthy eid = true) (h : validateInput input = Except.ok n) :
    handleAddCase UserRole.user eid now today input cases = AddResult.permissionDenied := by
  unfold handleAddCase
  rw [h]
  simp [ht]

-- ==== Claim theorems about the handlers ====

/-- C2 counterexample: deleting an absent id (99, store holds only id 1) with
a permitted role reaches the `setCases`-and-success-alert path (`deleted`),
not a not-found failure; there is no `NotFoundError` outcome in the code. -/
theorem C2_counterexample :
    handleDeleteCase UserRole.admin true 99 [dupProbe] = DeleteResult.deleted [dupProbe] := by
  decide

/-- C2 amended: role user is always refused; any other role deleting a
confirmed absent id reports success with the list unchanged (no not-found
detection exists). -/
theorem C2_amended :
    (∀ (confirmed : Bool) (id : Nat) (cases : List CaseData),
        handleDeleteCase UserRole.user confirmed id cases = DeleteResult.permissionDenied)
    ∧ (∀ (role : UserRole) (id : Nat) (cases : List CaseData), role ≠ UserRole.user →
        (∀ c ∈ cases, c.id ≠ id) →
        handleDeleteCase role true id cases = DeleteResult.deleted cases) := by
  constructor
  · intro confirmed id cases
    simp [handleDeleteCase]
  · intro role id cases hrole habs
    unfold handleDeleteCase
    rw [if_neg hrole, if_pos rfl]
    congr 1
    rw [List.filter_eq_self]
    intro a ha
    simpa using habs a ha

/-- C2 witness: instances of both conjuncts at id 99 over a store holding
only id 1. -/
theorem C2_amended_witness :
    (UserRole.admin ≠ UserRole.user ∧ ∀ c ∈ [dupProbe], c.id ≠ 99)
    ∧ handleDeleteCase UserRole.user true 99 [dupProbe] = DeleteResult.permissionDenied
    ∧ handleDeleteCase UserRole.admin true 99 [dupProbe] = DeleteResult.deleted [dupProbe] :=
  ⟨⟨by decide, by decide⟩, C2_amended.1 true 99 [dupProbe],
   C2_amended.2 UserRole.admin 99 [dupProbe] (by decide) (by decide)⟩

/-- C3 counterexample: an edit (editing id 1) by role user with an empty name
fails with the validation message, not the permission refusal — validation
runs before the permission check. -/
theorem C3_counterexample :
    handleAddCase UserRole.user (some 1) 0 "2024-01-01"
      ⟨CaseType.case_note, "", "5", Gender.male, "nd"⟩ [dupProbe]
      = AddResult.validationError "Tên trẻ, tuổi và nội dung không được để trống" := by
  decide

/-- C3 amended: for role user, delete always fails with the permission
refusal and edits always fail — with the permission refusal whenever the
input passes validation, otherwise with a validation error — and in every
case the case list is left unchanged. -/
theorem C3_amended :
    (∀ (confirmed : Bool) (id : Nat) (cases : List CaseData),
        handleDeleteCase UserRole.user confirmed id cases = DeleteResult.permissionDenied
        ∧ casesAfterDelete (handleDeleteCase UserRole.user confirmed id cases) cases = cases)
    ∧ (∀ (eid : Option Nat) (now : Nat) (today : String) (input : CaseInput)
        (cases : List CaseData), jsTruthy eid = true →
        (handleAddCase UserRole.user eid now today input cases = AddResult.permissionDenied
          ∨ ∃ msg, handleAddCase UserRole.user eid now today input cases
              = AddResult.validationError msg)
        ∧ casesAfterAdd (handleAddCase UserRole.user eid now today input cases) cases = cases)
    ∧ (∀ (eid : Option Nat) (now : Nat) (today : String) (input : CaseInput)
        (cases : List CaseData), jsTruthy eid = true → validationPasses input = true →
        handleAddCase UserRole.user eid now today input cases = AddResult.permissionDenied)
    ∧ (∀ (eid : Option Nat) (now : Nat) (today : String) (input : CaseInput)
        (cases : List CaseData), jsTruthy eid = true → validationPasses input = false →
        ∃ msg, handleAddCase UserRole.user eid now today input cases
          = AddResult.validationError msg) := by
  refine ⟨?_, ?_, ?_, ?_⟩
  · intro confirmed id cases
    constructor
    · simp [handleDeleteCase]
    · simp [handleDeleteCase, casesAfterDelete]
  · intro eid now today input cases ht
    cases hv : validateInput input with
    | error msg =>
        have he := handleAddCase_of_error UserRole.user eid now today input cases msg hv
        constructor
        · exact Or.inr ⟨msg, he⟩
        · rw [he]
          rfl
    | ok n =>
        have he := handleAddCase_user_edit_denied eid now today input cases n ht hv
        constructor
        · exact Or.inl he
        · rw [he]
          rfl
  · intro eid now today input cases ht hp
    cases hv : validateInput input with
    | error msg =>
        exfalso
        unfold validationPasses at hp
        rw [hv] at hp
        cases hp
    | ok n => exact handleAddCase_user_edit_denied eid now today input cases n ht hv
  · intro eid now today input cases ht hp
    cases hv : validateInput input with
    | error msg =>
        exact ⟨msg, handleAddCase_of_error UserRole.user eid now today input cases msg hv⟩
    | ok n =>
        exfalso
        unfold validationPasses at hp
        rw [hv] at hp
        cases hp

/-- C3 witness: instances at editing id 1 over a store holding id 1 — a valid
input gets the permission refusal, an invalid input (empty name) gets a
validation error, and delete gets the permission refusal. -/
theorem C3_amended_witness :
    (jsTruthy (some 1) = true
      ∧ validationPasses ⟨CaseType.case_note, "A", "5", Gender.male, "nd"⟩ = true
      ∧ validationPasses ⟨CaseType.case_note, "", "5", Gender.male, "nd"⟩ = false)
    ∧ handleDeleteCase UserRole.user true 1 [dupProbe] = DeleteResult.permissionDenied
    ∧ handleAddCase UserRole.user (some 1) 0 "2024-01-01"
        ⟨CaseType.case_note, "A", "5", Gender.male, "nd"⟩ [dupProbe]
        = AddResult.permissionDenied
    ∧ ∃ msg, handleAddCase UserRole.user (some 1) 0 "2024-01-01"
        ⟨CaseType.case_note, "", "5", Gender.male, "nd"⟩ [dupProbe]
        = AddResult.validationError msg :=
  ⟨⟨by decide, by decide, by decide⟩, (C3_amended.1 true 1 [dupProbe]).1,
   C3_amended.2.2.1 (some 1) 0 "2024-01-01"
     ⟨CaseType.case_note, "A", "5", Gender.male, "nd"⟩ [dupProbe] (by decide) (by decide),
   C3_amended.2.2.2 (some 1) 0 "2024-01-01"
     ⟨CaseType.case_note, "", "5", Gender.male, "nd"⟩ [dupProbe] (by decide) (by decide)⟩

/-- C4 counterexample: the age text `2x` is not a positive integer, yet the
case is created (stored with age 2, the `parseInt` prefix) instead of failing
with a validation error. -/
theorem C4_counterexample :
    handleAddCase UserRole.admin none 1 "2024-01-01"
      ⟨CaseType.case_note, "A", "2x", Gender.male, "nd"⟩ []
      = AddResult.saved
          [mkCase none 1 "2024-01-01" ⟨CaseType.case_note, "A", "2x", Gender.male, "nd"⟩ 2
            UserRole.admin UserRole.admin] []
    ∧ (mkCase none 1 "2024-01-01" ⟨CaseType.case_note, "A", "2x", Gender.male, "nd"⟩ 2
        UserRole.admin UserRole.admin).childAge = 2 :=
  ⟨by decide, by decide⟩

/-- C4 amended: for every role, creation or edit fails with a validation
error — before any state change — when name, age, or content is empty after
trimming, or when `parseInt` of the age text yields no digits or a
non-positive value (the leading integer prefix, not the whole string, is what
is validated). -/
theorem C4_amended (role : UserRole) (eid : Option Nat) (now : Nat) (today : String)
    (input : CaseInput) (cases : List CaseData)
    (h : jsTrim input.childName.data = [] ∨ jsTrim input.childAge.data = []
      ∨ jsTrim input.content.data = [] ∨ parseIntJS input.childAge = none
      ∨ ∃ n, parseIntJS input.childAge = some n ∧ n ≤ 0) :
    (∃ msg, handleAddCase role eid now today input cases = AddResult.validationError msg)
    ∧ casesAfterAdd (handleAddCase role eid now today input cases) cases = cases := by
  obtain ⟨msg, hmsg⟩ := validateInput_error_of_bad input h
  have he := handleAddCase_of_error role eid now today input cases msg hmsg
  constructor
  · exact ⟨msg, he⟩
  · rw [he]
    rfl

/-- C4 witness: a creation attempt with age text `0` (zero is not positive)
is rejected with a validation error and the store survives untouched. -/
theorem C4_amended_witness :
    (parseIntJS "0" = some 0 ∧ (0 : Int) ≤ 0)
    ∧ (∃ msg, handleAddCase UserRole.admin none 1 "2024-01-01"
        ⟨CaseType.case_note, "A", "0", Gender.male, "nd"⟩ [dupProbe]
        = AddResult.validationError msg)
    ∧ casesAfterAdd (handleAddCase UserRole.admin none 1 "2024-01-01"
        ⟨CaseType.case_note, "A", "0", Gender.male, "nd"⟩ [dupProbe]) [dupProbe] = [dupProbe] :=
  ⟨⟨by decide, by decide⟩,
   (C4_amended UserRole.admin none 1 "2024-01-01"
      ⟨CaseType.case_note, "A", "0", Gender.male, "nd"⟩ [dupProbe]
      (Or.inr (Or.inr (Or.inr (Or.inr ⟨0, by decide, by decide⟩))))).1,
   (C4_amended UserRole.admin none 1 "2024-01-01"
      ⟨CaseType.case_note, "A", "0", Gender.male, "nd"⟩ [dupProbe]
      (Or.inr (Or.inr (Or.inr (Or.inr ⟨0, by decide, by decide⟩))))).2⟩

/-- C8: every case record built by creation or update has `notified` true
exactly when its prediction is serious; under that invariant the stats flag
`hasSerious` coincides with "some visible case is serious". -/
theorem C8_notified_invariant :
    (∀ (eid : Option Nat) (now : Nat) (today : String) (input : CaseInput)
        (ageNum : Int) (role orig : UserRole),
        (mkCase eid now today input ageNum role orig).notified = true ↔
          (mkCase eid now today input ageNum role orig).prediction = AbuseLevel.serious)
    ∧ (∀ (role : UserRole) (cases : List CaseData),
        (∀ c ∈ cases, c.notified = true ↔ c.prediction = AbuseLevel.serious) →
        ((stats role cases).hasSerious = true ↔
          ∃ c ∈ statsFiltered role cases, c.prediction = AbuseLevel.serious)) := by
  constructor
  · intro eid now today input ageNum role orig
    simp [mkCase]
  · intro role cases hinv
    have hs : (stats role cases).hasSerious
        = (statsFiltered role cases).any
            fun c => decide (c.prediction = AbuseLevel.serious) && c.notified := rfl
    rw [hs, List.any_eq_true]
    constructor
    · rintro ⟨c, hc, hp⟩
      rw [Bool.and_eq_true, decide_eq_true_eq] at hp
      exact ⟨c, hc, hp.1⟩
    · rintro ⟨c, hc, hp⟩
      refine ⟨c, hc, ?_⟩
      rw [Bool.and_eq_true, decide_eq_true_eq]
      exact ⟨hp, (hinv c (statsFiltered_subset role cases c hc)).mpr hp⟩

/-- C8 witness: over a store holding one serious notified case, the admin
stats flag agrees with the existence of a visible serious case. -/
theorem C8_notified_invariant_witness :
    (∀ c ∈ [seriousProbe], c.notified = true ↔ c.prediction = AbuseLevel.serious)
    ∧ ((stats UserRole.admin [seriousProbe]).hasSerious = true ↔
        ∃ c ∈ statsFiltered UserRole.admin [seriousProbe],
          c.prediction = AbuseLevel.serious) :=
  ⟨by decide, C8_notified_invariant.2 UserRole.admin [seriousProbe] (by decide)⟩
